import Mathlib

/-!
Verification of the constellation composition mapping engine
(`src/constellation_composition_mcp/server.py`).

The Python source is shallowly embedded: the in-source catalog dictionary
becomes a list of named records, each helper function of the mapping engine
becomes a Lean function of the same name, Python floats are modelled as real
numbers, and the hidden state of Python's global `random` module is threaded
explicitly as a natural-number state.  Substring tests (`needle in haystack`)
are modelled by an executable character-list scan.
-/

set_option maxRecDepth 20000

namespace ConstellationMCP

/-- Record type mirroring one entry of the `CONSTELLATIONS` dictionary. -/
structure ConstRecord where
  abbr : String
  genitive : String
  story : String
  theme : String
  visual_character : String
  brightness_profile : String
  star_count_visual : Nat
  shape : String
deriving DecidableEq

/-- Boolean test that the first list is a leading segment of the second. -/
def chPre : List Char → List Char → Bool
  | [], _ => true
  | _ :: _, [] => false
  | a :: as, b :: bs => a == b && chPre as bs

/-- Boolean test that `needle` occurs contiguously somewhere in the haystack. -/
def chSub (needle : List Char) : List Char → Bool
  | [] => chPre needle []
  | b :: t => chPre needle (b :: t) || chSub needle t

/-- Model of the Python substring operator `needle in hay` on strings. -/
def strHas (hay needle : String) : Bool :=
  chSub needle.data hay.data

/-- Model of Python `str.lower()`; the catalog text is ASCII, where the two
agree character by character. -/
def strLower (s : String) : String :=
  String.mk (s.data.map Char.toLower)

/-- Splitting a character list at every comma, accumulating the current
fragment in reverse. -/
def splitCommaAux : List Char → List Char → List (List Char)
  | [], acc => [acc.reverse]
  | c :: rest, acc =>
    if c == ',' then acc.reverse :: splitCommaAux rest []
    else splitCommaAux rest (c :: acc)

/-- Model of Python `str.split(',')`. -/
def splitComma (s : String) : List String :=
  (splitCommaAux s.data []).map String.mk

/-- Whitespace as stripped by Python `str.strip()` (the characters that occur
in the catalog text). -/
def isSpaceChar (c : Char) : Bool :=
  c == ' ' || c == '\t' || c == '\n' || c == '\r'

/-- Model of Python `str.strip()`. -/
def strTrim (s : String) : String :=
  String.mk
    (((s.data.dropWhile isSpaceChar).reverse.dropWhile isSpaceChar).reverse)

/-- Model of Python `random.seed(n)`: the global generator state is replaced by
a state depending only on `n`. -/
def seedRNG (n : Nat) : Nat := n

/-- Model of Python `random.random()`: one congruential step of the generator
state, returning a rational draw in `[0,1)` together with the new state.  The
verification uses only that the draw is a deterministic function of the state
and lies in `[0,1)`, which is what `random.random()` guarantees. -/
def randStep (s : Nat) : Rat × Nat :=
  let t := (6364136223846793005 * s + 1442695040888963407) % 18446744073709551616
  (((t : Rat)) / 18446744073709551616, t)

/-- One focal point, mirroring the Python dicts
`\x7b'x': _, 'y': _, 'weight': _\x7d`. -/
structure FocalPoint where
  x : ℝ
  y : ℝ
  weight : ℝ

/-- Result of `determine_visual_flow`. -/
structure VisualFlow where
  primary_direction : String
  flow_type : String
  movement_quality : String
  rhythm : String
deriving DecidableEq

/-- The `center_of_mass` sub-dictionary of the balance result. -/
structure MassCenter where
  x : ℝ
  y : ℝ

/-- Result of `calculate_balance`. -/
structure Balance where
  balance_type : String
  center_of_mass : MassCenter
  symmetry : String
  stability : String

/-- Result of `generate_suggested_elements`. -/
structure SuggestedElements where
  subjects : List String
  lighting : List String
  atmosphere : List String
  color_palette : List String
deriving DecidableEq

/-- The `CompositionParameters` model of the source. -/
structure CompositionParameters where
  focal_points : List FocalPoint
  visual_flow : VisualFlow
  balance : Balance
  spatial_distribution : String
  mythology_themes : List String
  suggested_elements : SuggestedElements

def Andromeda : ConstRecord :=
  ⟨"And", "Andromedae", "Chained princess rescued by Perseus",
   "Sacrifice, rescue, beauty in chains",
   "Linear with graceful curves, horizontal spread",
   "moderate_to_bright", 7, "elongated_linear"⟩

def Aquarius : ConstRecord :=
  ⟨"Aqr", "Aquarii", "Water bearer pouring from celestial jar",
   "Flow, abundance, giving",
   "Cascading downward flow, dispersed",
   "moderate", 8, "dispersed_cascade"⟩

def Aquila : ConstRecord :=
  ⟨"Aql", "Aquilae", "Eagle carrying Zeus\x27s thunderbolts",
   "Power, divine messenger, soaring",
   "Wings spread wide, central bright star",
   "very_bright_center", 6, "symmetric_wings"⟩

def Aries : ConstRecord :=
  ⟨"Ari", "Arietis", "Golden fleece ram",
   "Courage, sacrifice, precious treasure",
   "Compact curved form, ram\x27s horn",
   "bright", 4, "compact_curved"⟩

def Cancer : ConstRecord :=
  ⟨"Cnc", "Cancri", "Crab sent by Hera to distract Hercules",
   "Persistence, protective shell",
   "Compact cluster, crab body",
   "faint_with_cluster", 5, "compact_central"⟩

def CanisMajor : ConstRecord :=
  ⟨"CMa", "Canis Majoris", "Greater hunting dog following Orion",
   "Loyalty, hunting, companionship",
   "Compact with brilliant Sirius, dynamic stance",
   "extremely_bright_star", 8, "compact_dynamic"⟩

def Capricornus : ConstRecord :=
  ⟨"Cap", "Capricorni", "Sea-goat with fish tail",
   "Duality, earth and water, ambition",
   "Triangular form, goat\x27s head to fish tail",
   "moderate", 7, "triangular"⟩

def Cassiopeia : ConstRecord :=
  ⟨"Cas", "Cassiopeiae", "Vain queen bound to throne",
   "Pride, punishment, eternal vigilance",
   "Distinctive W or M shape, highly recognizable",
   "bright", 5, "w_zigzag"⟩

def Centaurus : ConstRecord :=
  ⟨"Cen", "Centauri", "Wise centaur, teacher of heroes",
   "Wisdom, healing, mentorship",
   "Large spread, bow-wielding stance",
   "very_bright", 11, "large_complex"⟩

def Cygnus : ConstRecord :=
  ⟨"Cyg", "Cygni", "Swan, Zeus in disguise, Northern Cross",
   "Transformation, grace, divine deception",
   "Perfect cross or swan in flight",
   "bright_cross", 6, "cross_symmetric"⟩

def Gemini : ConstRecord :=
  ⟨"Gem", "Geminorum", "Twin brothers Castor and Pollux",
   "Brotherhood, duality, eternal bond",
   "Twin parallel figures, two bright stars",
   "two_bright_stars", 8, "parallel_twins"⟩

def Leo : ConstRecord :=
  ⟨"Leo", "Leonis", "Nemean lion slain by Hercules",
   "Courage, royalty, invincibility",
   "Sickle for head/mane, triangle for body",
   "very_bright", 9, "sickle_triangle"⟩

def Lyra : ConstRecord :=
  ⟨"Lyr", "Lyrae", "Orpheus\x27s lyre",
   "Music, art, lost love",
   "Compact parallelogram, small but bright",
   "extremely_bright_star", 5, "compact_parallelogram"⟩

def Orion : ConstRecord :=
  ⟨"Ori", "Orionis", "Great hunter with belt and sword",
   "Hunting prowess, tragic death, grandeur",
   "Hourglass with distinctive belt, large and commanding",
   "multiple_bright_stars", 10, "hourglass_belt"⟩

def Pegasus : ConstRecord :=
  ⟨"Peg", "Pegasi", "Winged horse sprung from Medusa\x27s blood",
   "Inspiration, flight, poetic achievement",
   "Great square with extended lines for head/legs",
   "bright_square", 9, "square_extended"⟩

def Perseus : ConstRecord :=
  ⟨"Per", "Persei", "Hero who slew Medusa",
   "Heroism, clever strategy, reflection",
   "Curved chain from Cassiopeia, Medusa\x27s head",
   "bright", 8, "curved_chain"⟩

def Sagittarius : ConstRecord :=
  ⟨"Sgr", "Sagittarii", "Centaur archer aiming at Scorpius",
   "Aim, philosophy, adventure",
   "Teapot shape, pointing toward galactic center",
   "bright", 10, "teapot"⟩

def Scorpius : ConstRecord :=
  ⟨"Sco", "Scorpii", "Scorpion that killed Orion",
   "Danger, deadly beauty, revenge",
   "Curved tail with stinger, bright red heart",
   "very_bright_red", 12, "curved_tail"⟩

def Taurus : ConstRecord :=
  ⟨"Tau", "Tauri", "Bull form of Zeus, Pleiades sisters",
   "Strength, passion, pursuit",
   "V-shaped face, Pleiades cluster",
   "bright_with_cluster", 8, "v_shaped"⟩

def UrsaMajor : ConstRecord :=
  ⟨"UMa", "Ursae Majoris", "Great bear, transformed Callisto, Big Dipper",
   "Transformation, eternal circling, guidance",
   "Dipper shape, circumpolar, never setting",
   "bright", 7, "dipper"⟩

def UrsaMinor : ConstRecord :=
  ⟨"UMi", "Ursae Minoris", "Little bear, contains North Star",
   "Guidance, steadfastness, eternal pivot",
   "Small dipper, Polaris at tail",
   "bright_pole_star", 7, "small_dipper"⟩

def Virgo : ConstRecord :=
  ⟨"Vir", "Virginis", "Maiden of harvest, justice, or purity",
   "Harvest, innocence, justice",
   "Y-shaped figure, large sprawling",
   "very_bright", 9, "y_shaped"⟩

/-- The in-source catalog, in the insertion order of the Python dictionary. -/
def CONSTELLATIONS : List (String × ConstRecord) :=
  [("Andromeda", Andromeda), ("Aquarius", Aquarius), ("Aquila", Aquila),
   ("Aries", Aries), ("Cancer", Cancer), ("Canis Major", CanisMajor),
   ("Capricornus", Capricornus), ("Cassiopeia", Cassiopeia),
   ("Centaurus", Centaurus), ("Cygnus", Cygnus), ("Gemini", Gemini),
   ("Leo", Leo), ("Lyra", Lyra), ("Orion", Orion), ("Pegasus", Pegasus),
   ("Perseus", Perseus), ("Sagittarius", Sagittarius), ("Scorpius", Scorpius),
   ("Taurus", Taurus), ("Ursa Major", UrsaMajor), ("Ursa Minor", UrsaMinor),
   ("Virgo", Virgo)]

/-- The seven sine-curve points of the "curved"/"tail" branch of
`generate_focal_points`. -/
noncomputable def curvedPoints : List FocalPoint :=
  let num_points : Nat := 7
  (List.range num_points).map fun (i : Nat) =>
    let t : ℝ := (i : ℝ) / ((num_points - 1 : Nat) : ℝ)
    ⟨0.2 + 0.6 * t, 0.5 + 0.2 * Real.sin (t * Real.pi),
     if i < 2 then 0.4 else 0.2⟩

/-- The scattered points of the "dispersed" branch: three draws of the seeded
generator per point (x, then y, then weight), matching the loop body of the
source. -/
noncomputable def dispersedPoints : Nat → Nat → List FocalPoint
  | 0, _ => []
  | n + 1, s =>
    let r1 := randStep s
    let r2 := randStep r1.2
    let r3 := randStep r2.2
    ⟨0.2 + (r1.1 : ℝ) * 0.6, 0.2 + (r2.1 : ℝ) * 0.6,
     0.2 + (r3.1 : ℝ) * 0.2⟩ :: dispersedPoints n r3.2

/-- Embedding of `generate_focal_points`.  The extra `rng` argument is the
state of Python's global `random` module when the call starts; the dispersed
branch replaces it by the constant reseed before drawing.  The canvas
arguments are accepted and, as in the source, never used. -/
noncomputable def generate_focal_points (brightness shape : String)
    (width height : Nat) (rng : Nat) : List FocalPoint :=
  if strHas brightness "two_bright_stars" then
    [⟨0.35, 0.5, 0.5⟩, ⟨0.65, 0.5, 0.5⟩]
  else if strHas brightness "extremely_bright_star" then
    [⟨0.5, 0.5, 1.0⟩, ⟨0.35, 0.6, 0.2⟩, ⟨0.65, 0.4, 0.2⟩]
  else if strHas brightness "bright_cross" || strHas shape "cross" then
    [⟨0.5, 0.5, 0.5⟩, ⟨0.5, 0.3, 0.3⟩, ⟨0.3, 0.5, 0.25⟩,
     ⟨0.7, 0.5, 0.25⟩, ⟨0.5, 0.7, 0.3⟩]
  else if strHas shape "belt" || strHas shape "hourglass" then
    [⟨0.5, 0.45, 0.4⟩, ⟨0.35, 0.3, 0.35⟩, ⟨0.65, 0.3, 0.35⟩,
     ⟨0.35, 0.7, 0.25⟩, ⟨0.65, 0.7, 0.25⟩]
  else if strHas shape "w_zigzag" then
    [⟨0.2, 0.5, 0.25⟩, ⟨0.35, 0.4, 0.25⟩, ⟨0.5, 0.5, 0.25⟩,
     ⟨0.65, 0.4, 0.25⟩, ⟨0.8, 0.5, 0.25⟩]
  else if strHas shape "dipper" then
    [⟨0.3, 0.45, 0.25⟩, ⟨0.45, 0.45, 0.25⟩, ⟨0.45, 0.6, 0.25⟩,
     ⟨0.3, 0.6, 0.25⟩, ⟨0.55, 0.5, 0.2⟩, ⟨0.65, 0.45, 0.2⟩,
     ⟨0.75, 0.4, 0.2⟩]
  else if strHas shape "square" then
    [⟨0.35, 0.35, 0.3⟩, ⟨0.65, 0.35, 0.3⟩, ⟨0.65, 0.65, 0.3⟩,
     ⟨0.35, 0.65, 0.3⟩]
  else if strHas shape "triangular" then
    [⟨0.5, 0.3, 0.4⟩, ⟨0.35, 0.65, 0.35⟩, ⟨0.65, 0.65, 0.35⟩]
  else if strHas shape "curved" || strHas shape "tail" then
    curvedPoints
  else if strHas shape "dispersed" then
    dispersedPoints 6 (seedRNG 42)
  else
    [⟨0.5, 0.35, 0.4⟩, ⟨0.35, 0.65, 0.35⟩, ⟨0.65, 0.65, 0.35⟩]

/-- Embedding of `determine_visual_flow`; the geometry argument is accepted,
nullable, and never inspected, exactly as in the source. -/
def determine_visual_flow {α : Type} (shape : String)
    (geometry_data : Option α) : VisualFlow :=
  if strHas shape "cascade" || strHas shape "dispersed_cascade" then
    ⟨"downward", "cascading", "fluid, dispersing", "irregular, natural flow"⟩
  else if strHas shape "wings" || strHas shape "symmetric" then
    ⟨"horizontal", "bilateral", "balanced, expansive", "symmetrical"⟩
  else if strHas shape "curved" || strHas shape "tail" then
    ⟨"curved sweep", "sinuous", "dynamic, flowing", "continuous curve"⟩
  else if strHas shape "cross" then
    ⟨"radial", "centered", "stable, anchored", "four-way symmetry"⟩
  else if strHas shape "linear" || strHas shape "belt" then
    ⟨"horizontal", "linear", "direct, purposeful", "regular spacing"⟩
  else if strHas shape "zigzag" || strHas shape "w_" then
    ⟨"alternating", "zigzag", "energetic, angular", "rhythmic alternation"⟩
  else if strHas shape "dipper" then
    ⟨"L-shaped", "segmented", "contained then extending",
     "bowl to handle transition"⟩
  else
    ⟨"multi-directional", "balanced", "stable", "varied"⟩

/-- The `total_weight` local of `calculate_balance`. -/
noncomputable def total_weight (focal_points : List FocalPoint) : ℝ :=
  (focal_points.map (fun p => p.weight)).sum

/-- The `center_x` local of `calculate_balance`. -/
noncomputable def center_x (focal_points : List FocalPoint) : ℝ :=
  (focal_points.map (fun p => p.x * p.weight)).sum / total_weight focal_points

/-- The `center_y` local of `calculate_balance`. -/
noncomputable def center_y (focal_points : List FocalPoint) : ℝ :=
  (focal_points.map (fun p => p.y * p.weight)).sum / total_weight focal_points

/-- Embedding of `calculate_balance`. -/
noncomputable def calculate_balance (shape : String)
    (focal_points : List FocalPoint) : Balance :=
  let cx := center_x focal_points
  let cy := center_y focal_points
  let balance_type :=
    if |cx - 0.5| < 0.1 ∧ |cy - 0.5| < 0.1 then "centered"
    else if |cx - 0.5| < 0.1 then "vertically_centered"
    else if |cy - 0.5| < 0.1 then "horizontally_centered"
    else "asymmetric"
  let is_symmetric :=
    strHas shape "symmetric" || strHas shape "cross" || strHas shape "square"
  { balance_type := balance_type
    center_of_mass := ⟨cx, cy⟩
    symmetry := if is_symmetric then "symmetric" else "asymmetric"
    stability := if balance_type == "centered" then "high" else "dynamic" }

/-- Embedding of `determine_spatial_distribution`. -/
def determine_spatial_distribution (shape : String) (star_count : Nat) :
    String :=
  if strHas shape "compact" then "clustered_central"
  else if strHas shape "dispersed" || strHas shape "cascade" then
    "scattered_wide"
  else if strHas shape "linear" || strHas shape "belt" then
    "linear_arrangement"
  else if star_count ≤ 5 then "minimal_sparse"
  else if star_count ≥ 10 then "complex_dense"
  else "moderate_distributed"

/-- Embedding of `extract_mythology_themes`. -/
def extract_mythology_themes (metadata : ConstRecord) : List String :=
  let story := strLower metadata.story
  let theme := strLower metadata.theme
  let themes : List String :=
    if theme == "" then [] else (splitComma theme).map (fun t => strTrim t)
  let themes := if strHas story "rescue" || strHas story "save" then
    themes ++ ["heroic rescue"] else themes
  let themes := if strHas story "hunt" || strHas story "prey" then
    themes ++ ["the hunt"] else themes
  let themes := if strHas story "transform" then
    themes ++ ["transformation"] else themes
  let themes := if strHas story "death" || strHas story "kill" ||
      strHas story "slay" then themes ++ ["mortality"] else themes
  let themes := if strHas story "eternal" || strHas story "immortal" then
    themes ++ ["eternity"] else themes
  let themes := if strHas story "love" then
    themes ++ ["love and loss"] else themes
  let themes := if strHas story "wisdom" || strHas story "teacher" then
    themes ++ ["wisdom"] else themes
  let themes := if strHas story "punishment" then
    themes ++ ["divine punishment"] else themes
  themes.take 5

/-- Embedding of `generate_suggested_elements`. -/
def generate_suggested_elements (metadata : ConstRecord)
    (shape brightness : String) : SuggestedElements :=
  let story := strLower metadata.story
  let subjects :=
    if strHas story "hunt" then
      ["figures in pursuit", "dynamic poses", "animals", "weapons"]
    else if strHas story "rescue" then
      ["hero and victim", "chains or bonds", "triumphant pose"]
    else if strHas story "music" || strHas story "lyre" then
      ["musical instruments", "flowing fabric", "contemplative pose"]
    else if strHas story "wisdom" then
      ["scroll or book", "teaching gesture", "attentive students"]
    else ["primary figure", "supporting elements", "narrative props"]
  let lighting :=
    if strHas brightness "extremely_bright" then
      ["dramatic key light", "high contrast", "star-like highlights",
       "radiating glow"]
    else if strHas brightness "two_bright" then
      ["dual light sources", "balanced illumination", "twin highlights"]
    else if strHas brightness "bright_cross" then
      ["four-point lighting", "symmetrical illumination", "centered highlight"]
    else ["even lighting", "gentle highlights", "soft shadows"]
  let atmosphere :=
    if strHas shape "cascade" then
      ["flowing mist", "falling elements", "vertical movement"]
    else if strHas shape "curved" || strHas shape "tail" then
      ["swirling smoke", "curved lines", "dynamic energy"]
    else if strHas shape "symmetric" || strHas shape "cross" then
      ["balanced composition", "architectural elements", "formal symmetry"]
    else ["natural environment", "organic forms", "irregular shapes"]
  let theme := strLower metadata.theme
  let color_palette :=
    if strHas theme "water" || strHas theme "flow" then
      ["blues", "teals", "silver", "flowing gradients"]
    else if strHas theme "fire" || strHas theme "power" then
      ["reds", "oranges", "golds", "warm tones"]
    else if strHas theme "death" || strHas theme "darkness" then
      ["deep purples", "blacks", "dark blues", "somber tones"]
    else if strHas theme "wisdom" || strHas theme "healing" then
      ["greens", "soft golds", "earth tones", "balanced hues"]
    else
      ["starlight whites", "night sky blues", "cosmic purples",
       "celestial palette"]
  ⟨subjects, lighting, atmosphere, color_palette⟩

/-- Embedding of `map_constellation_to_composition`, the core mapping.  The
name argument is accepted and, as in the source, unused; the `rng` argument is
the ambient state of the global generator at call time. -/
noncomputable def map_constellation_to_composition {α : Type}
    (constellation_name : String) (metadata : ConstRecord)
    (geometry_data : Option α) (canvas_width canvas_height : Nat)
    (include_mythology : Bool) (rng : Nat) : CompositionParameters :=
  let shape := metadata.shape
  let brightness := metadata.brightness_profile
  let focal_points :=
    generate_focal_points brightness shape canvas_width canvas_height rng
  let visual_flow := determine_visual_flow shape geometry_data
  let balance := calculate_balance shape focal_points
  let spatial_distribution :=
    determine_spatial_distribution shape metadata.star_count_visual
  let mythology_themes :=
    if include_mythology then extract_mythology_themes metadata else []
  let suggested_elements := generate_suggested_elements metadata shape brightness
  ⟨focal_points, visual_flow, balance, spatial_distribution,
   mythology_themes, suggested_elements⟩

/-- Embedding of the `validate_constellation` field validator: exact
case-insensitive name match first, then abbreviation match, else the input is
returned unchanged. -/
def validate_constellation (v : String) : String :=
  match CONSTELLATIONS.find? (fun nr => strLower v == strLower nr.1) with
  | some nr => nr.1
  | none =>
    match CONSTELLATIONS.find? (fun nr => strLower v == strLower nr.2.abbr) with
    | some nr => nr.1
    | none => v

/-- Boolean code-point comparison of strings, the order Python `sorted` uses
on the catalog names. -/
def chLex : List Char → List Char → Bool
  | [], _ => true
  | _ :: _, [] => false
  | a :: as, b :: bs =>
    if a.toNat < b.toNat then true
    else if b.toNat < a.toNat then false
    else chLex as bs

/-- Insertion of one name into a sorted list of names. -/
def insertName (a : String) : List String → List String
  | [] => [a]
  | b :: t => if chLex a.data b.data then a :: b :: t else b :: insertName a t

/-- Model of Python `sorted` on the list of catalog names. -/
def sortNames (l : List String) : List String :=
  l.foldr insertName []

/-- The `available` string of the not-found error message:
`', '.join(sorted(CONSTELLATIONS.keys()))`. -/
def availableNames : String :=
  String.intercalate ", " (sortNames (CONSTELLATIONS.map Prod.fst))

/-- Embedding of the lookup-and-map control flow of the
`generate_constellation_composition` tool: the validated name is looked up in
the catalog; an unresolved name yields the not-found error message and no
mapping is performed, otherwise the mapping runs on the resolved record. -/
noncomputable def generate_constellation_composition {α : Type}
    (constellation_name : String) (geometry_data : Option α)
    (canvas_width canvas_height : Nat) (include_mythology : Bool)
    (rng : Nat) : Except String CompositionParameters :=
  let name := validate_constellation constellation_name
  match CONSTELLATIONS.find? (fun nr => nr.1 == name) with
  | none =>
    .error ("Error: Constellation \x27" ++ name ++
      "\x27 not found. Available constellations: " ++ availableNames)
  | some nr =>
    .ok (map_constellation_to_composition name nr.2 geometry_data
      canvas_width canvas_height include_mythology rng)

/-- A focal point with coordinates inside the unit square and positive
weight. -/
def GoodPoint (p : FocalPoint) : Prop :=
  (0 ≤ p.x ∧ p.x ≤ 1) ∧ (0 ≤ p.y ∧ p.y ≤ 1) ∧ 0 < p.weight

lemma goodPoint_mk {a b c : ℝ} (h1 : 0 ≤ a) (h2 : a ≤ 1) (h3 : 0 ≤ b)
    (h4 : b ≤ 1) (h5 : 0 < c) : GoodPoint ⟨a, b, c⟩ :=
  ⟨⟨h1, h2⟩, ⟨h3, h4⟩, h5⟩

lemma randStep_nonneg (s : Nat) : 0 ≤ (randStep s).1 := by
  unfold randStep
  positivity

lemma randStep_lt_one (s : Nat) : (randStep s).1 < 1 := by
  unfold randStep
  rw [div_lt_one (by norm_num)]
  exact_mod_cast Nat.mod_lt _ (by norm_num)

lemma dispersedPoints_good : ∀ (n s : Nat), ∀ p ∈ dispersedPoints n s,
    GoodPoint p := by
  intro n
  induction n with
  | zero => intro s p hp; simp [dispersedPoints] at hp
  | succ k ih =>
    intro s p hp
    simp only [dispersedPoints] at hp
    rcases List.mem_cons.mp hp with h | h
    · subst h
      have hx0 : (0 : ℝ) ≤ ((randStep s).1 : ℝ) := by
        exact_mod_cast randStep_nonneg s
      have hx1 : ((randStep s).1 : ℝ) < 1 := by
        exact_mod_cast randStep_lt_one s
      have hy0 : (0 : ℝ) ≤ ((randStep (randStep s).2).1 : ℝ) := by
        exact_mod_cast randStep_nonneg (randStep s).2
      have hy1 : ((randStep (randStep s).2).1 : ℝ) < 1 := by
        exact_mod_cast randStep_lt_one (randStep s).2
      have hw0 : (0 : ℝ) ≤ ((randStep (randStep (randStep s).2).2).1 : ℝ) := by
        exact_mod_cast randStep_nonneg (randStep (randStep s).2).2
      exact goodPoint_mk (by nlinarith) (by nlinarith) (by nlinarith)
        (by nlinarith) (by nlinarith)
    · exact ih _ p h

lemma dispersedPoints_length (n s : Nat) :
    (dispersedPoints n s).length = n := by
  induction n generalizing s with
  | zero => rfl
  | succ k ih => simp [dispersedPoints, ih]

lemma curvedPoints_good : ∀ p ∈ curvedPoints, GoodPoint p := by
  intro p hp
  simp only [curvedPoints] at hp
  rcases List.mem_map.mp hp with ⟨i, hi, rfl⟩
  rw [List.mem_range] at hi
  have hi6 : (i : ℝ) ≤ 6 := by exact_mod_cast Nat.lt_succ_iff.mp hi
  have hi0 : (0 : ℝ) ≤ (i : ℝ) := Nat.cast_nonneg i
  have hc : ((7 - 1 : Nat) : ℝ) = 6 := by norm_num
  refine goodPoint_mk ?_ ?_ ?_ ?_ ?_
  · rw [hc]; positivity
  · rw [hc]
    have ht : (i : ℝ) / 6 ≤ 1 := by
      rw [div_le_one (by norm_num)]; exact hi6
    nlinarith
  · rw [hc]
    have hs1 := Real.neg_one_le_sin ((i : ℝ) / 6 * Real.pi)
    nlinarith
  · rw [hc]
    have hs2 := Real.sin_le_one ((i : ℝ) / 6 * Real.pi)
    nlinarith
  · split_ifs <;> norm_num

lemma curvedPoints_ne_nil : curvedPoints ≠ [] := by
  intro hnil
  have hlen := congrArg List.length hnil
  simp [curvedPoints] at hlen

set_option maxHeartbeats 1000000 in
lemma generate_focal_points_sound (b sh : String) (w h s : Nat) :
    generate_focal_points b sh w h s ≠ [] ∧
    ∀ p ∈ generate_focal_points b sh w h s, GoodPoint p := by
  unfold generate_focal_points
  by_cases h1 : strHas b "two_bright_stars" = true
  · rw [if_pos h1]
    exact ⟨by simp, by norm_num [List.forall_mem_cons, GoodPoint]⟩
  rw [if_neg h1]
  by_cases h2 : strHas b "extremely_bright_star" = true
  · rw [if_pos h2]
    exact ⟨by simp, by norm_num [List.forall_mem_cons, GoodPoint]⟩
  rw [if_neg h2]
  by_cases h3 : (strHas b "bright_cross" || strHas sh "cross") = true
  · rw [if_pos h3]
    exact ⟨by simp, by norm_num [List.forall_mem_cons, GoodPoint]⟩
  rw [if_neg h3]
  by_cases h4 : (strHas sh "belt" || strHas sh "hourglass") = true
  · rw [if_pos h4]
    exact ⟨by simp, by norm_num [List.forall_mem_cons, GoodPoint]⟩
  rw [if_neg h4]
  by_cases h5 : strHas sh "w_zigzag" = true
  · rw [if_pos h5]
    exact ⟨by simp, by norm_num [List.forall_mem_cons, GoodPoint]⟩
  rw [if_neg h5]
  by_cases h6 : strHas sh "dipper" = true
  · rw [if_pos h6]
    exact ⟨by simp, by norm_num [List.forall_mem_cons, GoodPoint]⟩
  rw [if_neg h6]
  by_cases h7 : strHas sh "square" = true
  · rw [if_pos h7]
    exact ⟨by simp, by norm_num [List.forall_mem_cons, GoodPoint]⟩
  rw [if_neg h7]
  by_cases h8 : strHas sh "triangular" = true
  · rw [if_pos h8]
    exact ⟨by simp, by norm_num [List.forall_mem_cons, GoodPoint]⟩
  rw [if_neg h8]
  by_cases h9 : (strHas sh "curved" || strHas sh "tail") = true
  · rw [if_pos h9]
    exact ⟨curvedPoints_ne_nil, curvedPoints_good⟩
  rw [if_neg h9]
  by_cases h10 : strHas sh "dispersed" = true
  · rw [if_pos h10]
    refine ⟨?_, dispersedPoints_good 6 (seedRNG 42)⟩
    intro hnil
    have hl := dispersedPoints_length 6 (seedRNG 42)
    rw [hnil] at hl
    simp at hl
  rw [if_neg h10]
  exact ⟨by simp, by norm_num [List.forall_mem_cons, GoodPoint]⟩

lemma total_weight_pos (b sh : String) (w h s : Nat) :
    0 < total_weight (generate_focal_points b sh w h s) := by
  unfold total_weight
  apply List.sum_pos
  · intro x hx
    rcases List.mem_map.mp hx with ⟨p, hp, rfl⟩
    exact ((generate_focal_points_sound b sh w h s).2 p hp).2.2
  · intro hmap
    rw [List.map_eq_nil_iff] at hmap
    exact (generate_focal_points_sound b sh w h s).1 hmap

lemma extract_le5 (md : ConstRecord) :
    (extract_mythology_themes md).length ≤ 5 := by
  unfold extract_mythology_themes
  rw [List.length_take]
  exact min_le_left _ _

lemma extract_catalog_ne : ∀ nr ∈ CONSTELLATIONS,
    extract_mythology_themes nr.2 ≠ [] := by decide

lemma calculate_balance_centered (shape : String) (pts : List FocalPoint)
    (h1 : |center_x pts - 0.5| < 0.1) (h2 : |center_y pts - 0.5| < 0.1) :
    (calculate_balance shape pts).balance_type = "centered" := by
  simp only [calculate_balance]
  rw [if_pos ⟨h1, h2⟩]

lemma validate_unresolved (v : String)
    (hname : ∀ nr ∈ CONSTELLATIONS, strLower v ≠ strLower nr.1)
    (habbr : ∀ nr ∈ CONSTELLATIONS, strLower v ≠ strLower nr.2.abbr) :
    validate_constellation v = v := by
  have e1 : CONSTELLATIONS.find? (fun nr => strLower v == strLower nr.1)
      = none :=
    List.find?_eq_none.mpr (fun nr hnr => by simpa using hname nr hnr)
  have e2 : CONSTELLATIONS.find? (fun nr => strLower v == strLower nr.2.abbr)
      = none :=
    List.find?_eq_none.mpr (fun nr hnr => by simpa using habbr nr hnr)
  simp only [validate_constellation, e1, e2]

lemma lookup_unresolved (v : String)
    (hname : ∀ nr ∈ CONSTELLATIONS, strLower v ≠ strLower nr.1) :
    CONSTELLATIONS.find? (fun nr => nr.1 == v) = none :=
  List.find?_eq_none.mpr (fun nr hnr => by
    simp only [beq_iff_eq]
    intro he
    exact hname nr hnr (by rw [he]))

/-- Claim C1, counterexample: for the record "Orion" at a concrete valid
canvas, the produced `spatial_distribution` is not "complex_dense" — the
shape-tag rule for "belt" fires before the star-count threshold rule. -/
theorem orion_spatial_not_complex_dense :
    (map_constellation_to_composition "Orion" Orion (none : Option Unit)
      1024 1024 true 0).spatial_distribution ≠ "complex_dense" := by
  intro hc
  have hlin : (map_constellation_to_composition "Orion" Orion
      (none : Option Unit) 1024 1024 true 0).spatial_distribution
      = "linear_arrangement" := rfl
  rw [hlin] at hc
  exact absurd hc (by decide)

/-- Claim C1, amended: for the catalog record "Orion" (shape tag
"hourglass_belt", visualStarCount 10) the mapping returns 5 focal points with
the belt-center point weighted 0.4, the two shoulders 0.35 each, the two feet
0.25 each, and `spatial_distribution` equal to "linear_arrangement", because
the shape-tag rule matching the substring "belt" precedes the star-count
threshold rule. -/
theorem orion_focal_points_and_distribution :
    (map_constellation_to_composition "Orion" Orion (none : Option Unit)
        1024 1024 true 0).focal_points =
      [⟨0.5, 0.45, 0.4⟩, ⟨0.35, 0.3, 0.35⟩, ⟨0.65, 0.3, 0.35⟩,
       ⟨0.35, 0.7, 0.25⟩, ⟨0.65, 0.7, 0.25⟩] ∧
    (map_constellation_to_composition "Orion" Orion (none : Option Unit)
        1024 1024 true 0).spatial_distribution = "linear_arrangement" :=
  ⟨rfl, rfl⟩

/-- Claim C2: for every catalog record and includeMythology flag, the
composition result is identical across all valid canvas widths and heights in
[512, 4096] and across every value (and element type) of the supplementary
geometry parameter, including `none`: the output depends only on the record
and the flag. -/
theorem map_ignores_canvas_and_geometry :
    ∀ nr ∈ CONSTELLATIONS, ∀ {α β : Type} (g₁ : Option α) (g₂ : Option β)
      (w₁ h₁ w₂ h₂ : Nat) (inc : Bool) (s : Nat),
      512 ≤ w₁ → w₁ ≤ 4096 → 512 ≤ h₁ → h₁ ≤ 4096 →
      512 ≤ w₂ → w₂ ≤ 4096 → 512 ≤ h₂ → h₂ ≤ 4096 →
      map_constellation_to_composition nr.1 nr.2 g₁ w₁ h₁ inc s =
        map_constellation_to_composition nr.1 nr.2 g₂ w₂ h₂ inc s := by
  intro nr _ α β g₁ g₂ w₁ h₁ w₂ h₂ inc s _ _ _ _ _ _ _ _
  rfl

/-- Witness for claim C2 at the record "Orion", two different valid canvases
and two different geometry values. -/
theorem map_ignores_canvas_and_geometry_witness :
    ("Orion", Orion) ∈ CONSTELLATIONS ∧
    map_constellation_to_composition "Orion" Orion (none : Option Unit)
        512 1024 true 7 =
      map_constellation_to_composition "Orion" Orion (some ()) 4096 2048
        true 7 :=
  ⟨by decide,
   map_ignores_canvas_and_geometry ("Orion", Orion) (by decide)
     (none : Option Unit) (some ()) 512 1024 4096 2048 true 7 (by decide)
     (by decide) (by decide) (by decide) (by decide) (by decide) (by decide)
     (by decide)⟩

/-- Claim C3: the mapping is deterministic — two calls with identical inputs
but arbitrary (different) states of the ambient random generator produce
identical results, in particular identical focal point coordinates, including
for records whose shape tag contains "dispersed" (that branch reseeds the
generator with the constant seed 42 on every call). -/
theorem map_deterministic_in_rng_state {α : Type} (constellation_name : String)
    (metadata : ConstRecord) (g : Option α) (w h : Nat) (inc : Bool)
    (s₁ s₂ : Nat) :
    map_constellation_to_composition constellation_name metadata g w h inc s₁ =
      map_constellation_to_composition constellation_name metadata g w h
        inc s₂ :=
  rfl

/-- Claim C4: for the record "Gemini" (brightness tag "two_bright_stars") the
mapping returns exactly the two focal points (0.35, 0.5, 0.5) and
(0.65, 0.5, 0.5) in that order, the balance type is "centered" with center of
mass (0.5, 0.5), and the symmetry is "asymmetric" since the shape tag
"parallel_twins" contains none of "symmetric", "cross", "square". -/
theorem gemini_two_focal_points_and_balance :
    (map_constellation_to_composition "Gemini" Gemini (none : Option Unit)
        1024 1024 true 0).focal_points =
      [⟨0.35, 0.5, 0.5⟩, ⟨0.65, 0.5, 0.5⟩] ∧
    (map_constellation_to_composition "Gemini" Gemini (none : Option Unit)
        1024 1024 true 0).balance.balance_type = "centered" ∧
    (map_constellation_to_composition "Gemini" Gemini (none : Option Unit)
        1024 1024 true 0).balance.center_of_mass.x = 0.5 ∧
    (map_constellation_to_composition "Gemini" Gemini (none : Option Unit)
        1024 1024 true 0).balance.center_of_mass.y = 0.5 ∧
    (map_constellation_to_composition "Gemini" Gemini (none : Option Unit)
        1024 1024 true 0).balance.symmetry = "asymmetric" := by
  have hcx : center_x [(⟨0.35, 0.5, 0.5⟩ : FocalPoint), ⟨0.65, 0.5, 0.5⟩]
      = 0.5 := by
    unfold center_x total_weight
    norm_num [List.map_cons, List.map_nil, List.sum_cons, List.sum_nil]
  have hcy : center_y [(⟨0.35, 0.5, 0.5⟩ : FocalPoint), ⟨0.65, 0.5, 0.5⟩]
      = 0.5 := by
    unfold center_y total_weight
    norm_num [List.map_cons, List.map_nil, List.sum_cons, List.sum_nil]
  refine ⟨rfl, ?_, ?_, ?_, rfl⟩
  · show (calculate_balance "parallel_twins"
        [⟨0.35, 0.5, 0.5⟩, ⟨0.65, 0.5, 0.5⟩]).balance_type = "centered"
    apply calculate_balance_centered
    · rw [hcx]
      rw [abs_lt]
      constructor <;> norm_num
    · rw [hcy]
      rw [abs_lt]
      constructor <;> norm_num
  · show center_x [(⟨0.35, 0.5, 0.5⟩ : FocalPoint), ⟨0.65, 0.5, 0.5⟩] = 0.5
    exact hcx
  · show center_y [(⟨0.35, 0.5, 0.5⟩ : FocalPoint), ⟨0.65, 0.5, 0.5⟩] = 0.5
    exact hcy

/-- Claim C5: for every catalog record, the returned center of mass equals the
weighted average of the focal points in the result — `cx` is the sum of
`x * weight` divided by the sum of weights, likewise `cy` — and the dividing
total weight is strictly positive. -/
theorem center_of_mass_is_weighted_average :
    ∀ nr ∈ CONSTELLATIONS, ∀ {α : Type} (g : Option α) (w h : Nat)
      (inc : Bool) (s : Nat),
      (map_constellation_to_composition nr.1 nr.2 g w h inc
            s).balance.center_of_mass.x =
          ((map_constellation_to_composition nr.1 nr.2 g w h inc
              s).focal_points.map (fun p => p.x * p.weight)).sum /
            ((map_constellation_to_composition nr.1 nr.2 g w h inc
              s).focal_points.map (fun p => p.weight)).sum ∧
      (map_constellation_to_composition nr.1 nr.2 g w h inc
            s).balance.center_of_mass.y =
          ((map_constellation_to_composition nr.1 nr.2 g w h inc
              s).focal_points.map (fun p => p.y * p.weight)).sum /
            ((map_constellation_to_composition nr.1 nr.2 g w h inc
              s).focal_points.map (fun p => p.weight)).sum ∧
      0 < ((map_constellation_to_composition nr.1 nr.2 g w h inc
          s).focal_points.map (fun p => p.weight)).sum := by
  intro nr _ α g w h inc s
  exact ⟨rfl, rfl, total_weight_pos nr.2.brightness_profile nr.2.shape w h s⟩

/-- Witness for claim C5 at the record "Gemini". -/
theorem center_of_mass_is_weighted_average_witness :
    ("Gemini", Gemini) ∈ CONSTELLATIONS ∧
    0 < ((map_constellation_to_composition "Gemini" Gemini
        (none : Option Unit) 777 888 false 3).focal_points.map
          (fun p => p.weight)).sum :=
  ⟨by decide,
   (center_of_mass_is_weighted_average ("Gemini", Gemini) (by decide)
     (none : Option Unit) 777 888 false 3).2.2⟩

/-- Claim C6: for every brightness and shape tag string (hence for every
catalog record), the focal-point generator returns at least one point, and
every returned point has x and y in [0, 1] and strictly positive weight, in
every branch including the sine-curve and the seeded pseudo-random one. -/
theorem focal_points_nonempty_and_bounded (brightness shape : String)
    (w h s : Nat) :
    generate_focal_points brightness shape w h s ≠ [] ∧
    ∀ p ∈ generate_focal_points brightness shape w h s,
      (0 ≤ p.x ∧ p.x ≤ 1) ∧ (0 ≤ p.y ∧ p.y ≤ 1) ∧ 0 < p.weight :=
  ⟨(generate_focal_points_sound brightness shape w h s).1,
   fun p hp => (generate_focal_points_sound brightness shape w h s).2 p hp⟩

/-- Witness for claim C6 on the default branch, evaluated at the first
returned point. -/
theorem focal_points_nonempty_and_bounded_witness :
    generate_focal_points "" "unknown_shape" 3 4 5 ≠ [] ∧
    ((0 ≤ (FocalPoint.mk 0.5 0.35 0.4).x ∧ (FocalPoint.mk 0.5 0.35 0.4).x ≤ 1) ∧
      (0 ≤ (FocalPoint.mk 0.5 0.35 0.4).y ∧
        (FocalPoint.mk 0.5 0.35 0.4).y ≤ 1) ∧
      0 < (FocalPoint.mk 0.5 0.35 0.4).weight) :=
  ⟨(focal_points_nonempty_and_bounded "" "unknown_shape" 3 4 5).1,
   (focal_points_nonempty_and_bounded "" "unknown_shape" 3 4 5).2
     ⟨0.5, 0.35, 0.4⟩ (List.Mem.head _)⟩

/-- Claim C7: for every catalog record, canvas and generator state, the
returned mythology themes list has length at most 5, and it is empty exactly
when includeMythology is false (every catalog record has a non-empty theme
field, so requesting mythology yields a non-empty list). -/
theorem mythology_themes_length_and_emptiness :
    ∀ nr ∈ CONSTELLATIONS, ∀ {α : Type} (g : Option α) (w h : Nat)
      (inc : Bool) (s : Nat),
      (map_constellation_to_composition nr.1 nr.2 g w h inc
          s).mythology_themes.length ≤ 5 ∧
      ((map_constellation_to_composition nr.1 nr.2 g w h inc
          s).mythology_themes = [] ↔ inc = false) := by
  intro nr hnr α g w h inc s
  have hmt : (map_constellation_to_composition nr.1 nr.2 g w h inc
      s).mythology_themes = if inc then extract_mythology_themes nr.2 else [] :=
    rfl
  rw [hmt]
  cases inc
  · simp
  · simpa using ⟨extract_le5 nr.2, extract_catalog_ne nr hnr⟩

/-- Witness for claim C7 at the record "Andromeda" with mythology requested. -/
theorem mythology_themes_length_and_emptiness_witness :
    ("Andromeda", Andromeda) ∈ CONSTELLATIONS ∧
    ((map_constellation_to_composition "Andromeda" Andromeda
        (none : Option Unit) 600 700 true 1).mythology_themes.length ≤ 5 ∧
      ((map_constellation_to_composition "Andromeda" Andromeda
          (none : Option Unit) 600 700 true 1).mythology_themes = [] ↔
        true = false)) :=
  ⟨by decide,
   mythology_themes_length_and_emptiness ("Andromeda", Andromeda) (by decide)
     (none : Option Unit) 600 700 true 1⟩

/-- Claim C8: focal-point rule precedence is first-match-wins — for any record
whose shape tag contains both "square" and "triangular" while no earlier rule
matches its brightness or shape tag, the "square" rule resolves the
classification, returning the 4 equal-weight corner points. -/
theorem square_rule_precedes_triangular_rule (brightness shape : String)
    (w h s : Nat)
    (h1 : strHas brightness "two_bright_stars" = false)
    (h2 : strHas brightness "extremely_bright_star" = false)
    (h3 : strHas brightness "bright_cross" = false)
    (h4 : strHas shape "cross" = false)
    (h5 : strHas shape "belt" = false)
    (h6 : strHas shape "hourglass" = false)
    (h7 : strHas shape "w_zigzag" = false)
    (h8 : strHas shape "dipper" = false)
    (hsq : strHas shape "square" = true)
    (htr : strHas shape "triangular" = true) :
    generate_focal_points brightness shape w h s =
      [⟨0.35, 0.35, 0.3⟩, ⟨0.65, 0.35, 0.3⟩, ⟨0.65, 0.65, 0.3⟩,
       ⟨0.35, 0.65, 0.3⟩] := by
  unfold generate_focal_points
  rw [if_neg (by simp [h1]), if_neg (by simp [h2]), if_neg (by simp [h3, h4]),
    if_neg (by simp [h5, h6]), if_neg (by simp [h7]), if_neg (by simp [h8]),
    if_pos hsq]

/-- Witness for claim C8 on the tag "square_triangular". -/
theorem square_rule_precedes_triangular_rule_witness :
    strHas "square_triangular" "square" = true ∧
    strHas "square_triangular" "triangular" = true ∧
    generate_focal_points "moderate" "square_triangular" 1024 768 3 =
      [⟨0.35, 0.35, 0.3⟩, ⟨0.65, 0.35, 0.3⟩, ⟨0.65, 0.65, 0.3⟩,
       ⟨0.35, 0.65, 0.3⟩] :=
  ⟨by decide, by decide,
   square_rule_precedes_triangular_rule "moderate" "square_triangular" 1024
     768 3 (by decide) (by decide) (by decide) (by decide) (by decide)
     (by decide) (by decide) (by decide) (by decide) (by decide)⟩

/-- Claim C9: any name that resolves to no catalog record by case-insensitive
name or abbreviation match makes the composition operation return the
not-found error carrying the full list of valid catalog names sorted by name,
and no mapping is performed. -/
theorem unresolvable_name_not_found_error {α : Type} (v : String)
    (g : Option α) (w h : Nat) (inc : Bool) (s : Nat)
    (hname : ∀ nr ∈ CONSTELLATIONS, strLower v ≠ strLower nr.1)
    (habbr : ∀ nr ∈ CONSTELLATIONS, strLower v ≠ strLower nr.2.abbr) :
    generate_constellation_composition v g w h inc s =
      Except.error ("Error: Constellation \x27" ++ v ++
        "\x27 not found. Available constellations: " ++ availableNames) ∧
    availableNames = "Andromeda, Aquarius, Aquila, Aries, Cancer, Canis Major, Capricornus, Cassiopeia, Centaurus, Cygnus, Gemini, Leo, Lyra, Orion, Pegasus, Perseus, Sagittarius, Scorpius, Taurus, Ursa Major, Ursa Minor, Virgo" := by
  constructor
  · have hv := validate_unresolved v hname habbr
    have e3 := lookup_unresolved v hname
    simp only [generate_constellation_composition, hv, e3]
  · decide

/-- Witness for claim C9 on the unresolvable name "Pegasuz". -/
theorem unresolvable_name_not_found_error_witness :
    generate_constellation_composition "Pegasuz" (none : Option Unit)
        1024 1024 true 0 =
      Except.error ("Error: Constellation \x27" ++ "Pegasuz" ++
        "\x27 not found. Available constellations: " ++ availableNames) ∧
    availableNames = "Andromeda, Aquarius, Aquila, Aries, Cancer, Canis Major, Capricornus, Cassiopeia, Centaurus, Cygnus, Gemini, Leo, Lyra, Orion, Pegasus, Perseus, Sagittarius, Scorpius, Taurus, Ursa Major, Ursa Minor, Virgo" :=
  unresolvable_name_not_found_error "Pegasuz" (none : Option Unit) 1024 1024
    true 0 (by decide) (by decide)

/-- Claim C10: the centroid division in the balance calculator never divides
by zero — for every shape and brightness tag string, the generator returns a
non-empty list whose weights are all strictly positive, so the total weight
summed in `calculate_balance` is strictly positive. -/
theorem balance_total_weight_positive (brightness shape : String)
    (w h s : Nat) :
    generate_focal_points brightness shape w h s ≠ [] ∧
    (∀ p ∈ generate_focal_points brightness shape w h s, 0 < p.weight) ∧
    0 < total_weight (generate_focal_points brightness shape w h s) :=
  ⟨(generate_focal_points_sound brightness shape w h s).1,
   fun p hp => ((generate_focal_points_sound brightness shape w h s).2
     p hp).2.2,
   total_weight_pos brightness shape w h s⟩

/-- Witness for claim C10 on the default branch with unmatched tags. -/
theorem balance_total_weight_positive_witness :
    generate_focal_points "moderate" "teapot" 512 512 0 ≠ [] ∧
    0 < (FocalPoint.mk 0.5 0.35 0.4).weight ∧
    0 < total_weight (generate_focal_points "moderate" "teapot" 512 512 0) :=
  ⟨(balance_total_weight_positive "moderate" "teapot" 512 512 0).1,
   (balance_total_weight_positive "moderate" "teapot" 512 512 0).2.1
     ⟨0.5, 0.35, 0.4⟩ (List.Mem.head _),
   (balance_total_weight_positive "moderate" "teapot" 512 512 0).2.2⟩

end ConstellationMCP
